import Mathlib

/-!
Verification of the flight-search data pipeline of the flightscanner repository.

The TypeScript sources are shallowly embedded as Lean definitions:

* JavaScript finite numbers are modelled as rationals; a JavaScript number that
  may be NaN or infinite is modelled as an option on rationals, with the option
  none standing for the non-finite values (NaN and the infinities), whose
  comparisons are always false.
* JavaScript string falsiness (the or-else operator falling back on the empty
  string as well as on null and undefined) is modelled explicitly.
* Arrays are lists; dictionary objects are association lists.
-/

/-- A JavaScript number that may fail to be a finite rational.
none models NaN and the infinities; all comparisons with none are false. -/
abbrev JSNum := Option ℚ

/-- The JavaScript or-else on strings: a || b falls back to b when a is
null, undefined, or the empty string (all falsy). -/
def jsOrElse (a : Option String) (b : String) : String :=
  match a with
  | some s => if s = "" then b else s
  | none => b

/-- a < b for a possibly-NaN left operand (NaN comparisons are false). -/
def jsNumLt (a : JSNum) (b : ℚ) : Bool :=
  match a with
  | some q => q < b
  | none => false

/-- a > b for a possibly-NaN left operand (NaN comparisons are false). -/
def jsNumGt (a : JSNum) (b : ℚ) : Bool :=
  match a with
  | some q => b < q
  | none => false

/-- a < b for a possibly-NaN integer left operand. -/
def jsIntLt (a : Option Int) (b : Int) : Bool :=
  match a with
  | some n => n < b
  | none => false

/-- a > b for a possibly-NaN integer left operand. -/
def jsIntGt (a : Option Int) (b : Int) : Bool :=
  match a with
  | some n => b < n
  | none => false

/-- JavaScript division by a natural count: NaN propagates, and division by
zero is non-finite (Infinity or NaN), hence none. -/
def jsDiv (a : JSNum) (n : Nat) : JSNum :=
  match a with
  | some q => if n = 0 then none else some (q / (n : ℚ))
  | none => none

/-- Value of a string of decimal digits, most significant first
(the semantics of parseInt on a digit string). -/
def digitsToNat (ds : List Char) : Nat :=
  ds.foldl (fun acc c => acc * 10 + (c.toNat - 48)) 0

/-- Maximal digit run at the front of a character list, together with the
remainder (the greedy semantics of a leading regular-expression digit group). -/
def spanDigits : List Char → List Char × List Char
  | [] => ([], [])
  | c :: cs =>
    if c.isDigit then
      let p := spanDigits cs
      (c :: p.1, p.2)
    else ([], c :: cs)

/-- Maximal digit prefix as a number, none when there is no leading digit
(parseInt returns NaN on such input). -/
def leadingDigits (cs : List Char) : Option Nat :=
  match spanDigits cs with
  | ([], _) => none
  | (ds, _) => some (digitsToNat ds)

/-- parseInt(s, 10): an optional sign followed by a maximal digit run;
none models NaN.  (parseInt also skips leading whitespace, which never
occurs in the time strings this model feeds it.) -/
def jsParseInt (s : String) : Option Int :=
  match s.data with
  | '-' :: cs => (leadingDigits cs).map (fun n => -(n : Int))
  | '+' :: cs => (leadingDigits cs).map (fun n => (n : Int))
  | cs => (leadingDigits cs).map (fun n => (n : Int))

/-- parseFloat on a plain decimal numeral (optional sign, digits, optional
point and fraction digits); none models NaN.  Exponent notation is not
modelled: the provider's money fields are plain decimals. -/
def parseFloatQ (s : String) : JSNum :=
  let core : List Char → Option ℚ := fun cs =>
    let p := spanDigits cs
    match p.2 with
    | '.' :: rest =>
      let f := spanDigits rest
      if p.1 = [] ∧ f.1 = [] then none
      else some ((digitsToNat p.1 : ℚ) + (digitsToNat f.1 : ℚ) / (10 ^ f.1.length : ℚ))
    | _ => if p.1 = [] then none else some (digitsToNat p.1 : ℚ)
  match s.data with
  | '-' :: cs => (core cs).map Neg.neg
  | '+' :: cs => core cs
  | cs => core cs

-- ============================================
-- Duration parsing (flightService parseDuration)
-- ============================================

/-- Normalized Duration record of the domain model. -/
structure Duration where
  hours : Nat
  minutes : Nat
  totalMinutes : Nat
  formatted : String
deriving DecidableEq

/-- Suffix following the first occurrence of the literal characters P T,
scanning left to right (how the unanchored regular expression of
parseDuration locates its match); none when PT never occurs. -/
def afterPT : List Char → Option (List Char)
  | [] => none
  | 'P' :: 'T' :: rest => some rest
  | _ :: cs => afterPT cs

/-- One optional numeric component of the duration pattern: it matches
exactly when the maximal digit run at the current position is non-empty and
immediately followed by the marker character (the backtracking semantics of
a greedy digit group in front of a literal). -/
def numComponent (marker : Char) (s : List Char) : Option Nat × List Char :=
  match spanDigits s with
  | ([], _) => (none, s)
  | (ds, c :: rest) => if c = marker then (some (digitsToNat ds), rest) else (none, s)
  | (_, []) => (none, s)

/-- parseDuration from the offer normalizer: match PT, an optional
hour component, an optional minute component; a failed match and missing
components contribute zero. -/
def parseDuration (isoDuration : String) : Duration :=
  match afterPT isoDuration.data with
  | none =>
    { hours := 0, minutes := 0, totalMinutes := 0, formatted := "0h 0m" }
  | some rest =>
    let hp := numComponent 'H' rest
    let mp := numComponent 'M' hp.2
    let hours := hp.1.getD 0
    let minutes := mp.1.getD 0
    { hours := hours, minutes := minutes,
      totalMinutes := hours * 60 + minutes,
      formatted := toString hours ++ "h " ++ toString minutes ++ "m" }

-- ============================================
-- Normalized domain model (flightOffer.ts)
-- ============================================

/-- Airline record: code plus display name. -/
structure Airline where
  code : String
  name : String
deriving DecidableEq

/-- One endpoint of a flown segment.  The optional airportName, cityName and
countryName fields of the source type are never populated by the normalizer
and are omitted. -/
structure FlightPoint where
  airportCode : String
  cityCode : String
  countryCode : String
  terminal : Option String
  dateTime : String
  time : String
  date : String
deriving DecidableEq

/-- Normalized flown segment. -/
structure Segment where
  id : String
  departure : FlightPoint
  arrival : FlightPoint
  duration : Duration
  flightNumber : String
  airline : Airline
  operatingAirline : Option Airline
  aircraft : String
  stops : Int
deriving DecidableEq

/-- Normalized directional itinerary. -/
structure Itinerary where
  direction : String
  duration : Duration
  segments : List Segment
  stops : Int
deriving DecidableEq

/-- Normalized price block.  total, base and perTraveler are parseFloat
results and hence possibly NaN. -/
structure Price where
  total : JSNum
  base : JSNum
  currency : String
  perTraveler : JSNum
deriving DecidableEq

/-- Normalized flight offer. -/
structure FlightOffer where
  id : String
  price : Price
  itineraries : List Itinerary
  validatingAirline : Airline
  bookingClass : String
  seatsAvailable : Nat
  lastTicketingDate : String
  isNonStop : Bool
  isOneWay : Bool
deriving DecidableEq

-- ============================================
-- Raw provider model (types/amadeus.ts)
-- ============================================

/-- Raw segment endpoint. -/
structure AmadeusEndpoint where
  iataCode : String
  terminal : Option String
  -- the source field is named at, a reserved word here
  atTime : String
deriving DecidableEq

/-- Raw aircraft reference. -/
structure AmadeusAircraft where
  code : String
deriving DecidableEq

/-- Raw operating-carrier reference. -/
structure AmadeusOperating where
  carrierCode : String
deriving DecidableEq

/-- Raw provider segment. -/
structure AmadeusSegment where
  departure : AmadeusEndpoint
  arrival : AmadeusEndpoint
  carrierCode : String
  number : String
  aircraft : AmadeusAircraft
  operating : Option AmadeusOperating
  duration : String
  id : String
  numberOfStops : Int
  blacklistedInEU : Bool
deriving DecidableEq

/-- Raw provider itinerary. -/
structure AmadeusItinerary where
  duration : String
  segments : List AmadeusSegment
deriving DecidableEq

/-- Raw provider price block (the unused fees array is omitted). -/
structure AmadeusPrice where
  currency : String
  total : String
  base : String
  grandTotal : String
deriving DecidableEq

/-- One fare-details-by-segment entry of a traveler pricing; only the cabin
is read by the normalizer. -/
structure AmadeusFareDetails where
  segmentId : String
  cabin : String
deriving DecidableEq

/-- Raw traveler pricing entry. -/
structure AmadeusTravelerPricing where
  travelerId : String
  travelerType : String
  fareDetailsBySegment : List AmadeusFareDetails
deriving DecidableEq

/-- Location info of the response dictionaries. -/
structure AmadeusLocationInfo where
  cityCode : String
  countryCode : String
deriving DecidableEq

/-- Response dictionaries: string-keyed record objects modelled as
association lists. -/
structure AmadeusDictionaries where
  locations : List (String × AmadeusLocationInfo)
  aircraft : List (String × String)
  currencies : List (String × String)
  carriers : List (String × String)
deriving DecidableEq

/-- Raw provider flight offer (fields not read by the normalizer are kept
when scalar, pricingOptions and similar unused nested blocks are omitted). -/
structure AmadeusFlightOffer where
  id : String
  oneWay : Bool
  lastTicketingDate : String
  numberOfBookableSeats : Nat
  itineraries : List AmadeusItinerary
  price : AmadeusPrice
  validatingAirlineCodes : List String
  travelerPricings : List AmadeusTravelerPricing
deriving DecidableEq

-- ============================================
-- Offer normalizer (flightService.ts)
-- ============================================

/-- Record-object string lookup with the JavaScript falsy fallback:
dict[key] || key. -/
def dictLookup (dict : List (String × String)) (key : String) : String :=
  jsOrElse (List.lookup key dict) key

/-- formatTime: the source renders the timestamp with toLocaleTimeString
using a 24-hour clock; rendering in the browser's local timezone is not
itself modellable, so this model reads the clock time directly off the ISO
string (the five characters after the date separator), which agrees with
the source whenever the runtime timezone matches the timestamp's. -/
def formatTime (isoDateTime : String) : String :=
  String.mk (((isoDateTime.data.dropWhile (fun c => c ≠ 'T')).drop 1).take 5)

/-- formatDate: the substring before the first T. -/
def formatDate (isoDateTime : String) : String :=
  String.mk (isoDateTime.data.takeWhile (fun c => c ≠ 'T'))

/-- normalizeSegment from the offer normalizer. -/
def normalizeSegment (segment : AmadeusSegment) (dictionaries : AmadeusDictionaries) : Segment :=
  let departureLocation := List.lookup segment.departure.iataCode dictionaries.locations
  let arrivalLocation := List.lookup segment.arrival.iataCode dictionaries.locations
  { id := segment.id,
    departure :=
      { airportCode := segment.departure.iataCode,
        cityCode := jsOrElse (departureLocation.map (fun l => l.cityCode)) segment.departure.iataCode,
        countryCode := jsOrElse (departureLocation.map (fun l => l.countryCode)) "",
        terminal := segment.departure.terminal,
        dateTime := segment.departure.atTime,
        time := formatTime segment.departure.atTime,
        date := formatDate segment.departure.atTime },
    arrival :=
      { airportCode := segment.arrival.iataCode,
        cityCode := jsOrElse (arrivalLocation.map (fun l => l.cityCode)) segment.arrival.iataCode,
        countryCode := jsOrElse (arrivalLocation.map (fun l => l.countryCode)) "",
        terminal := segment.arrival.terminal,
        dateTime := segment.arrival.atTime,
        time := formatTime segment.arrival.atTime,
        date := formatDate segment.arrival.atTime },
    duration := parseDuration segment.duration,
    flightNumber := segment.carrierCode ++ segment.number,
    airline :=
      { code := segment.carrierCode,
        name := dictLookup dictionaries.carriers segment.carrierCode },
    operatingAirline :=
      segment.operating.map (fun op =>
        { code := op.carrierCode,
          name := dictLookup dictionaries.carriers op.carrierCode }),
    aircraft := dictLookup dictionaries.aircraft segment.aircraft.code,
    stops := segment.numberOfStops }

/-- normalizeItinerary from the offer normalizer: itineraries[0] is
outbound, any later index inbound; stops is the segment count minus one. -/
def normalizeItinerary (itinerary : AmadeusItinerary) (index : Nat) (dictionaries : AmadeusDictionaries) : Itinerary :=
  { direction := if index = 0 then "outbound" else "inbound",
    duration := parseDuration itinerary.duration,
    segments := itinerary.segments.map (fun s => normalizeSegment s dictionaries),
    stops := (itinerary.segments.length : Int) - 1 }

/-- The indexed map of the source (itineraries.map with its index argument),
written as plain recursion carrying the index. -/
def normalizeItinerariesFrom (dictionaries : AmadeusDictionaries) : Nat → List AmadeusItinerary → List Itinerary
  | _, [] => []
  | i, it :: rest =>
    normalizeItinerary it i dictionaries :: normalizeItinerariesFrom dictionaries (i + 1) rest

/-- normalizeOffer from the offer normalizer.  The indexing of
validatingAirlineCodes[0] on an empty array yields the JavaScript
undefined, which every later use treats like an empty string; it is
modelled as the empty-string default. -/
def normalizeOffer (offer : AmadeusFlightOffer) (dictionaries : AmadeusDictionaries) : FlightOffer :=
  let validatingCode := offer.validatingAirlineCodes.headD ""
  let cabinClass :=
    jsOrElse ((offer.travelerPricings.head?.bind
      (fun tp => tp.fareDetailsBySegment.head?)).map (fun fd => fd.cabin)) "ECONOMY"
  let totalPassengers := offer.travelerPricings.length
  { id := offer.id,
    price :=
      { total := parseFloatQ offer.price.grandTotal,
        base := parseFloatQ offer.price.base,
        currency := offer.price.currency,
        perTraveler := jsDiv (parseFloatQ offer.price.grandTotal) totalPassengers },
    itineraries := normalizeItinerariesFrom dictionaries 0 offer.itineraries,
    validatingAirline :=
      { code := validatingCode,
        name := dictLookup dictionaries.carriers validatingCode },
    bookingClass := cabinClass,
    seatsAvailable := offer.numberOfBookableSeats,
    lastTicketingDate := offer.lastTicketingDate,
    isNonStop := offer.itineraries.all (fun it => it.segments.length = 1),
    isOneWay := offer.oneWay }

-- ============================================
-- Filter engine (FlightFilters.tsx)
-- ============================================

/-- Filter criteria as held by the FlightFilters component.  The slider and
checkbox values are finite numbers, so plain integers and rationals model
them exactly. -/
structure FilterState where
  stops : List Int
  airlines : List String
  priceRange : ℚ × ℚ
  departureTimeRange : Int × Int
  arrivalTimeRange : Int × Int
  maxDuration : Nat
deriving DecidableEq

/-- getOutboundItinerary: the first itinerary whose direction is outbound,
falling back to the first itinerary. -/
def getOutboundItinerary (offer : FlightOffer) : Option Itinerary :=
  match offer.itineraries.find? (fun it => it.direction == "outbound") with
  | some it => some it
  | none => offer.itineraries.head?

/-- Stop category of an itinerary: counts of two or more collapse to two. -/
def stopsCategory (itinerary : Itinerary) : Int :=
  if itinerary.stops ≥ 2 then 2 else itinerary.stops

/-- meetsStopsFilter: an empty allowed set restricts nothing; otherwise
every itinerary's stop category must be allowed. -/
def meetsStopsFilter (offer : FlightOffer) (allowedStops : List Int) : Bool :=
  if allowedStops = [] then true
  else offer.itineraries.all (fun itinerary => allowedStops.contains (stopsCategory itinerary))

/-- Airline codes of the outbound itinerary's segments
(outbound?.segments.map(s => s.airline.code) ?? []). -/
def outboundAirlineCodes (offer : FlightOffer) : List String :=
  match getOutboundItinerary offer with
  | some outbound => outbound.segments.map (fun s => s.airline.code)
  | none => []

/-- The airline criterion of applyFilters: an empty selection restricts
nothing; otherwise some selected airline must appear among the outbound
segment airline codes. -/
def meetsAirlinesFilter (offer : FlightOffer) (airlines : List String) : Bool :=
  if airlines = [] then true
  else airlines.any (fun a => (outboundAirlineCodes offer).contains a)

/-- getDepartureHour: parseInt of the hour part of the outbound first
segment's time string; zero when there is no outbound itinerary or no
segment; none models a NaN parse. -/
def getDepartureHour (offer : FlightOffer) : Option Int :=
  match getOutboundItinerary offer with
  | none => some 0
  | some outbound =>
    match outbound.segments with
    | [] => some 0
    | seg :: _ =>
      jsParseInt (String.mk (seg.departure.time.data.takeWhile (fun c => c ≠ ':')))

/-- getArrivalHour: parseInt of the hour part of the outbound last
segment's arrival time string. -/
def getArrivalHour (offer : FlightOffer) : Option Int :=
  match getOutboundItinerary offer with
  | none => some 0
  | some outbound =>
    match outbound.segments.getLast? with
    | none => some 0
    | some lastSegment =>
      jsParseInt (String.mk (lastSegment.arrival.time.data.takeWhile (fun c => c ≠ ':')))

/-- getTotalDuration: the outbound itinerary's total minutes, zero when
there is no outbound itinerary. -/
def getTotalDuration (offer : FlightOffer) : Nat :=
  match getOutboundItinerary offer with
  | some outbound => outbound.duration.totalMinutes
  | none => 0

/-- The per-offer predicate of applyFilters: the criteria of every
dimension must pass, each failing check returning early. -/
def offerMatchesFilters (newFilters : FilterState) (offer : FlightOffer) : Bool :=
  if ¬ meetsStopsFilter offer newFilters.stops then false
  else if ¬ meetsAirlinesFilter offer newFilters.airlines then false
  else if jsNumLt offer.price.total newFilters.priceRange.1 ∨
          jsNumGt offer.price.total newFilters.priceRange.2 then false
  else if jsIntLt (getDepartureHour offer) newFilters.departureTimeRange.1 ∨
          jsIntGt (getDepartureHour offer) newFilters.departureTimeRange.2 then false
  else if jsIntLt (getArrivalHour offer) newFilters.arrivalTimeRange.1 ∨
          jsIntGt (getArrivalHour offer) newFilters.arrivalTimeRange.2 then false
  else if getTotalDuration offer > newFilters.maxDuration then false
  else true

/-- applyFilters: keep the offers passing every criterion, in order. -/
def applyFilters (newFilters : FilterState) (offers : List FlightOffer) : List FlightOffer :=
  offers.filter (fun offer => offerMatchesFilters newFilters offer)

-- ============================================
-- Highlight selector (FlightHighlights.tsx)
-- ============================================

/-- Mean itinerary duration of an offer in minutes (the reduce-sum divided
by the itinerary count).  On an offer with no itineraries the source
divides zero by zero, a NaN whose downstream sort order is unspecified;
the claims assume at least one itinerary. -/
def getAverageDuration (offer : FlightOffer) : ℚ :=
  ((offer.itineraries.map (fun it => (it.duration.totalMinutes : ℚ))).sum) /
    (offer.itineraries.length : ℚ)

/-- Price key used by the cheapest sort.  The comparator subtracts the
totals, which is only a consistent comparator when every total is finite;
a NaN total (none) is given an arbitrary key and excluded by hypothesis
in the theorems. -/
def priceTotalKey (offer : FlightOffer) : ℚ :=
  (offer.price.total).getD 0

/-- Stable insertion into a sorted list: the new element passes the
strictly smaller ones and lands in front of the first equal-or-greater
one, as the required stability of Array.prototype.sort dictates. -/
def insertByKey (key : FlightOffer → ℚ) (x : FlightOffer) : List FlightOffer → List FlightOffer
  | [] => [x]
  | y :: ys => if key y < key x then y :: insertByKey key x ys else x :: y :: ys

/-- The stable ascending sort of Array.prototype.sort under the comparator
subtracting the keys. -/
def stableSortBy (key : FlightOffer → ℚ) : List FlightOffer → List FlightOffer
  | [] => []
  | x :: xs => insertByKey key x (stableSortBy key xs)

/-- The highlight computation of FlightHighlights: sort copies of the offer
list by price and by mean duration, take the heads, and suppress the result
when both picks are the same offer.  Only the type tag and the picked offer
are modelled; label, icon, color and description are presentation fields
derived from them. -/
def selectHighlights (offers : List FlightOffer) : List (String × FlightOffer) :=
  match offers with
  | [] => []
  | _ :: _ =>
    match (stableSortBy priceTotalKey offers).head?,
          (stableSortBy getAverageDuration offers).head? with
    | some cheapest, some fastest =>
      if fastest.id = cheapest.id then []
      else [("cheapest", cheapest), ("fastest", fastest)]
    | _, _ => []

-- ============================================
-- Location service (locationService.ts) and location cache (locationStore.ts)
-- ============================================

/-- Flat normalized location record (a LocationSearchResult whose optional
airports field is absent). -/
structure LocationEntry where
  id : String
  type : String
  code : String
  name : String
  cityName : String
  cityCode : String
  countryName : String
  countryCode : String
  detailedName : String
  score : Option ℚ
deriving DecidableEq

/-- Normalized location search result: the flat record plus the optional
nested airports of a city entry. -/
structure LocationSearchResult where
  entry : LocationEntry
  airports : Option (List LocationEntry)
deriving DecidableEq

/-- A transport failure thrown by the HTTP client. -/
structure TransportError where
  message : String
deriving DecidableEq

/-- The exact-match scan of getLocationByCode: walk the results in order,
returning a top-level entry whose code matches, or a nested airport of a
city whose code matches (the returned airport carries no airports field). -/
def findByCode (code : String) : List LocationSearchResult → Option LocationSearchResult
  | [] => none
  | r :: rest =>
    if r.entry.code = code then some r
    else
      match r.airports with
      | some airports =>
        match airports.find? (fun a => a.code = code) with
        | some airport => some { entry := airport, airports := none }
        | none => findByCode code rest
      | none => findByCode code rest

/-- The try-block of getLocationByCode: run the search (which may throw),
then the exact-match scan, then the first-result fallback. -/
def getLocationByCodeBody (code : String)
    (searchOutcome : Except TransportError (List LocationSearchResult)) :
    Except TransportError (Option LocationSearchResult) := do
  let results ← searchOutcome
  match findByCode code results with
  | some r => pure (some r)
  | none => pure results.head?

/-- getLocationByCode: short codes resolve to null without a search, and a
transport failure of the search is caught and mapped to null. -/
def getLocationByCode (code : String)
    (searchOutcome : Except TransportError (List LocationSearchResult)) :
    Except TransportError (Option LocationSearchResult) :=
  if code.length < 2 then .ok none
  else
    match getLocationByCodeBody code searchOutcome with
    | .error _ => .ok none
    | .ok r => .ok r

/-- getLocation of the location store: the code-keyed cache lookup
(cache[code] || null). -/
def getLocation (cache : List (String × LocationSearchResult)) (code : String) :
    Option LocationSearchResult :=
  List.lookup code cache

/-- The resolve-by-code chain of the search page: consult the location
store cache first, and only on a miss fall back to getLocationByCode. -/
def resolveByCode (cache : List (String × LocationSearchResult)) (code : String)
    (searchOutcome : Except TransportError (List LocationSearchResult)) :
    Except TransportError (Option LocationSearchResult) :=
  match getLocation cache code with
  | some r => .ok (some r)
  | none => getLocationByCode code searchOutcome

-- ============================================
-- Auth store (authStore.ts)
-- ============================================

/-- State of the auth store. -/
structure AuthState where
  accessToken : Option String
  expiresAt : Option Int
  isLoading : Bool
  error : Option String
deriving DecidableEq

/-- Refresh buffer before expiry, in milliseconds. -/
def TOKEN_EXPIRY_BUFFER : Int := 60 * 1000

/-- isTokenValid: both fields must be truthy (a null or empty token and a
null or zero expiry are falsy) and now must precede the buffered expiry. -/
def isTokenValid (st : AuthState) (now : Int) : Bool :=
  match st.accessToken, st.expiresAt with
  | some tok, some exp =>
    if tok = "" ∨ exp = 0 then false
    else now < exp - TOKEN_EXPIRY_BUFFER
  | _, _ => false

/-- What a call observes at its first suspension point: an immediately
returned cached token, attachment to an in-flight fetch, a configuration
failure, or the start of a fresh fetch (the one branch that issues a
network request). -/
inductive FetchStart where
  | immediateToken (token : String)
  | waiter
  | configError (st : AuthState)
  | started (st : AuthState)
deriving DecidableEq

/-- The synchronous first phase of fetchToken, up to the point where the
network request (if any) is issued. -/
def fetchTokenStart (st : AuthState) (now : Int) (clientConfigured : Bool) : FetchStart :=
  if isTokenValid st now ∧ st.accessToken.getD "" ≠ "" then
    .immediateToken (st.accessToken.getD "")
  else if st.isLoading then
    .waiter
  else if ¬ clientConfigured then
    .configError { st with error := some "Amadeus API credentials not configured", isLoading := false }
  else
    .started { st with isLoading := true, error := none }

/-- The synchronous first phase of getValidToken: return a valid cached
token, else defer to fetchToken. -/
def getValidTokenStart (st : AuthState) (now : Int) (clientConfigured : Bool) : FetchStart :=
  if isTokenValid st now ∧ st.accessToken.getD "" ≠ "" then
    .immediateToken (st.accessToken.getD "")
  else fetchTokenStart st now clientConfigured

/-- Outcome of the one in-flight authentication request. -/
inductive FetchOutcome where
  | success (token : String) (expiresIn : Int)
  | failure (message : String)
deriving DecidableEq

/-- State replacement performed when the in-flight fetch settles.  The
previous state is wholly overwritten by both branches. -/
def applyOutcome (now : Int) (_st : AuthState) : FetchOutcome → AuthState
  | .success token expiresIn =>
    { accessToken := some token, expiresAt := some (now + expiresIn * 1000),
      isLoading := false, error := none }
  | .failure message =>
    { accessToken := none, expiresAt := none, isLoading := false,
      error := some message }

/-- What the caller that issued the request receives: the fetched token, or
the AUTH_ERROR rejection carrying the recorded message. -/
def initiatorResult : FetchOutcome → Except String String
  | .success token _ => .ok token
  | .failure message => .error message

/-- What a waiter's poll callback computes once loading has ended: resolve
with the cached token when truthy, else reject with the recorded error or
the fallback message. -/
def waiterResult (st : AuthState) : Except String String :=
  if st.accessToken.getD "" ≠ "" then .ok (st.accessToken.getD "")
  else .error (jsOrElse st.error "Failed to fetch token")

/-- State as left behind by a call's first phase. -/
def stateAfterStart (st : AuthState) : FetchStart → AuthState
  | .immediateToken _ => st
  | .waiter => st
  | .configError st' => st'
  | .started st' => st'

/-- Number of network requests a first phase issues. -/
def startedCount : FetchStart → Nat
  | .started _ => 1
  | _ => 0

/-- Final result of one call given the settled state. -/
def callResult (r : FetchStart) (outcome : FetchOutcome) (finalState : AuthState) :
    Except String String :=
  match r with
  | .immediateToken t => .ok t
  | .configError _ => .error "Amadeus API credentials not configured"
  | .started _ => initiatorResult outcome
  | .waiter => waiterResult finalState

/-- Observable outcome of the two-caller scenario. -/
structure ScenarioResult where
  requests : Nat
  firstCaller : Except String String
  secondCaller : Except String String
  finalState : AuthState

/-- The event-loop interleaving of the claim: caller A runs getValidToken
to its suspension point, then caller B does, then the single in-flight
request (if any) settles with the given outcome, after which both callers
observe their results. -/
def runConcurrentGetValidToken (st0 : AuthState) (now : Int) (clientConfigured : Bool)
    (outcome : FetchOutcome) : ScenarioResult :=
  let rA := getValidTokenStart st0 now clientConfigured
  let st1 := stateAfterStart st0 rA
  let rB := getValidTokenStart st1 now clientConfigured
  let st2 := stateAfterStart st1 rB
  let anyStarted := startedCount rA + startedCount rB
  let st3 := if anyStarted > 0 then applyOutcome now st2 outcome else st2
  { requests := anyStarted,
    firstCaller := callResult rA outcome st3,
    secondCaller := callResult rB outcome st3,
    finalState := st3 }

-- ============================================
-- Sample data and offer modifiers used by the theorems
-- ============================================

/-- Duration record with consistent totals. -/
def mkDuration (h m : Nat) : Duration :=
  { hours := h, minutes := m, totalMinutes := h * 60 + m,
    formatted := toString h ++ "h " ++ toString m ++ "m" }

/-- Flight point at an airport with a given local time. -/
def mkPoint (code time : String) : FlightPoint :=
  { airportCode := code, cityCode := code, countryCode := "US", terminal := none,
    dateTime := "", time := time, date := "2024-06-15" }

/-- Direct segment between two airports on a given airline. -/
def mkSegment (sid a b depTime arrTime airlineCode : String) : Segment :=
  { id := sid, departure := mkPoint a depTime, arrival := mkPoint b arrTime,
    duration := mkDuration 2 0, flightNumber := airlineCode ++ "100",
    airline := { code := airlineCode, name := airlineCode },
    operatingAirline := none, aircraft := "32B", stops := 0 }

/-- Itinerary of the given direction over the given segments. -/
def mkItinerary (dir : String) (segs : List Segment) : Itinerary :=
  { direction := dir, duration := mkDuration 5 30, segments := segs,
    stops := (segs.length : Int) - 1 }

/-- A plain one-way raw offer exactly as the provider returns it for a
one-way search: a single itinerary, and the oneWay flag false (the
provider's oneWay flag means one-way pricing, not itinerary count). -/
def rawOneWayOffer : AmadeusFlightOffer :=
  { id := "1",
    oneWay := false,
    lastTicketingDate := "2024-06-01",
    numberOfBookableSeats := 4,
    itineraries :=
      [{ duration := "PT5H30M",
         segments :=
           [{ departure := { iataCode := "JFK", terminal := some "4", atTime := "2024-06-15T08:00:00" },
              arrival := { iataCode := "LAX", terminal := none, atTime := "2024-06-15T11:30:00" },
              carrierCode := "AA", number := "100", aircraft := { code := "32B" },
              operating := none, duration := "PT5H30M", id := "1",
              numberOfStops := 0, blacklistedInEU := false }] }],
    price := { currency := "USD", total := "200.00", base := "150.00", grandTotal := "200.00" },
    validatingAirlineCodes := ["AA"],
    travelerPricings :=
      [{ travelerId := "1", travelerType := "ADULT",
         fareDetailsBySegment := [{ segmentId := "1", cabin := "ECONOMY" }] }] }

/-- C6 sample: a raw offer with grand total 856.42 and two
traveler-pricing entries, while the search itself asked for
two adults, one child and one infant (four requested travelers) —
the divisor is nevertheless the entry count two. -/
def rawTwoTravelerOffer : AmadeusFlightOffer :=
  { id := "2",
    oneWay := false,
    lastTicketingDate := "2024-06-01",
    numberOfBookableSeats := 4,
    itineraries :=
      [{ duration := "PT5H30M",
         segments :=
           [{ departure := { iataCode := "JFK", terminal := some "4", atTime := "2024-06-15T08:00:00" },
              arrival := { iataCode := "LAX", terminal := none, atTime := "2024-06-15T11:30:00" },
              carrierCode := "AA", number := "100", aircraft := { code := "32B" },
              operating := none, duration := "PT5H30M", id := "1",
              numberOfStops := 0, blacklistedInEU := false }] }],
    price := { currency := "USD", total := "856.42", base := "700.00", grandTotal := "856.42" },
    validatingAirlineCodes := ["AA"],
    travelerPricings :=
      [{ travelerId := "1", travelerType := "ADULT",
         fareDetailsBySegment := [{ segmentId := "1", cabin := "ECONOMY" }] },
       { travelerId := "2", travelerType := "ADULT",
         fareDetailsBySegment := [{ segmentId := "1", cabin := "ECONOMY" }] }] }

/-- Round trip with a non-stop outbound on AA and a one-stop inbound on UA. -/
def roundTripMixedStops : FlightOffer :=
  { id := "rt1",
    price := { total := some 500, base := some 400, currency := "USD", perTraveler := some 500 },
    itineraries :=
      [mkItinerary "outbound" [mkSegment "s1" "JFK" "LAX" "08:00" "11:30" "AA"],
       mkItinerary "inbound"
         [mkSegment "s2" "LAX" "DEN" "12:00" "14:00" "UA",
          mkSegment "s3" "DEN" "JFK" "15:00" "18:00" "UA"]],
    validatingAirline := { code := "AA", name := "American Airlines" },
    bookingClass := "ECONOMY", seatsAvailable := 4, lastTicketingDate := "2024-06-01",
    isNonStop := false, isOneWay := false }

/-- Fully non-stop round trip that passes the non-stop-only criteria. -/
def goodRoundTrip : FlightOffer :=
  { id := "rt2",
    price := { total := some 500, base := some 400, currency := "USD", perTraveler := some 500 },
    itineraries :=
      [mkItinerary "outbound" [mkSegment "s1" "JFK" "LAX" "08:00" "11:30" "AA"],
       mkItinerary "inbound" [mkSegment "s2" "LAX" "JFK" "12:00" "14:00" "UA"]],
    validatingAirline := { code := "AA", name := "American Airlines" },
    bookingClass := "ECONOMY", seatsAvailable := 4, lastTicketingDate := "2024-06-01",
    isNonStop := true, isOneWay := false }

/-- Criteria allowing only non-stop itineraries, everything else permissive. -/
def nonStopOnlyFilter : FilterState :=
  { stops := [0], airlines := [], priceRange := (0, 1000),
    departureTimeRange := (0, 24), arrivalTimeRange := (0, 24), maxDuration := 1440 }

-- ============================================
-- C3: the stops criterion checks every itinerary
-- ============================================

/-- Criteria selecting the AA airline only, everything else permissive. -/
def airlineFilterAA : FilterState :=
  { stops := [], airlines := ["AA"], priceRange := (0, 1000),
    departureTimeRange := (0, 24), arrivalTimeRange := (0, 24), maxDuration := 1440 }

/-- Criteria with empty stops and airline sets, a covering price range,
full hour ranges and a generous duration cap. -/
def permissiveFilter : FilterState :=
  { stops := [], airlines := [], priceRange := (0, 1000),
    departureTimeRange := (0, 24), arrivalTimeRange := (0, 24), maxDuration := 1440 }

/-- One-way offer whose outbound departure time string carries the hour 25;
its price and duration are comfortably inside the permissive criteria. -/
def lateHourOffer : FlightOffer :=
  { id := "late1",
    price := { total := some 500, base := some 400, currency := "USD", perTraveler := some 500 },
    itineraries :=
      [mkItinerary "outbound" [mkSegment "s1" "JFK" "LAX" "25:00" "11:30" "AA"]],
    validatingAirline := { code := "AA", name := "American Airlines" },
    bookingClass := "ECONOMY", seatsAvailable := 4, lastTicketingDate := "2024-06-01",
    isNonStop := true, isOneWay := true }

/-- Two-offer sample: the first is cheapest, the second is fastest. -/
def cheapOffer : FlightOffer :=
  { id := "cheap",
    price := { total := some 300, base := some 250, currency := "USD", perTraveler := some 300 },
    itineraries := [mkItinerary "outbound" [mkSegment "s1" "JFK" "LAX" "08:00" "11:30" "AA"]],
    validatingAirline := { code := "AA", name := "American Airlines" },
    bookingClass := "ECONOMY", seatsAvailable := 4, lastTicketingDate := "2024-06-01",
    isNonStop := true, isOneWay := true }

/-- The faster but dearer companion offer (its itinerary totals 120
minutes against the 330 of the cheap one). -/
def fastOffer : FlightOffer :=
  { id := "fast",
    price := { total := some 800, base := some 700, currency := "USD", perTraveler := some 800 },
    itineraries :=
      [{ direction := "outbound", duration := mkDuration 2 0,
         segments := [mkSegment "s2" "JFK" "LAX" "09:00" "11:00" "UA"], stops := 0 }],
    validatingAirline := { code := "UA", name := "United Airlines" },
    bookingClass := "ECONOMY", seatsAvailable := 4, lastTicketingDate := "2024-06-01",
    isNonStop := true, isOneWay := true }

/-- Rewrite the airline field of every segment of every inbound-direction
itinerary, leaving the outbound itinerary untouched. -/
def mapInboundAirlines (g : Airline → Airline) (offer : FlightOffer) : FlightOffer :=
  { offer with
    itineraries := offer.itineraries.map (fun it =>
      if it.direction == "inbound" then
        { it with segments := it.segments.map (fun s => { s with airline := g s.airline }) }
      else it) }

/-- New York city entry owning the JFK airport entry. -/
def jfkEntry : LocationEntry :=
  { id := "a1", type := "AIRPORT", code := "JFK", name := "John F Kennedy Intl",
    cityName := "New York", cityCode := "NYC", countryName := "United States",
    countryCode := "US", detailedName := "New York/US: John F Kennedy Intl",
    score := some 80 }

/-- City search result with one nested airport. -/
def nycCity : LocationSearchResult :=
  { entry :=
      { id := "c1", type := "CITY", code := "NYC", name := "New York",
        cityName := "New York", cityCode := "NYC", countryName := "United States",
        countryCode := "US", detailedName := "New York/US", score := some 100 },
    airports := some [jfkEntry] }

-- ============================================
-- Helper lemmas: duration parsing
-- ============================================

/-- Empty dictionaries (a response with no dictionary entries). -/
def emptyDictionaries : AmadeusDictionaries :=
  { locations := [], aircraft := [], currencies := [], carriers := [] }

lemma spanDigits_append (ds rest : List Char)
    (hds : ∀ c ∈ ds, c.isDigit = true)
    (hrest : ∀ c, rest.head? = some c → c.isDigit = false) :
    spanDigits (ds ++ rest) = (ds, rest) := by
  induction ds with
  | nil =>
    cases rest with
    | nil => rfl
    | cons c cs =>
      have hc : c.isDigit = false := hrest c rfl
      simp [spanDigits, hc]
  | cons d ds ih =>
    have hd : d.isDigit = true := hds d (by simp)
    have ih' := ih (fun c hc => hds c (by simp [hc]))
    simp [spanDigits, hd, ih']

lemma numComponent_hit (marker : Char) (hm : marker.isDigit = false)
    (ds rest : List Char) (hne : ds ≠ []) (hds : ∀ c ∈ ds, c.isDigit = true) :
    numComponent marker (ds ++ marker :: rest) = (some (digitsToNat ds), rest) := by
  have hspan : spanDigits (ds ++ marker :: rest) = (ds, marker :: rest) :=
    spanDigits_append ds (marker :: rest) hds (by intro c hc; cases hc; exact hm)
  cases ds with
  | nil => exact absurd rfl hne
  | cons d ds' =>
    unfold numComponent
    rw [hspan]
    simp

lemma numComponent_wrong_marker (marker c : Char) (s ds rest : List Char)
    (h : spanDigits s = (ds, c :: rest)) (hc : c ≠ marker) :
    numComponent marker s = (none, s) := by
  cases ds with
  | nil =>
    unfold numComponent
    rw [h]
  | cons d ds' =>
    unfold numComponent
    rw [h]
    simp [hc]

lemma numComponent_nil (marker : Char) : numComponent marker [] = (none, []) := rfl

lemma afterPT_eq_none_of_no_match (l : List Char) (h : ¬ (['P', 'T'] <:+: l)) :
    afterPT l = none := by
  induction l with
  | nil => rfl
  | cons c cs ih =>
    rw [afterPT.eq_def]
    split
    · rfl
    · rename_i rest heq
      exact absurd (⟨[], rest, by simp [← heq]⟩ : ['P', 'T'] <:+: c :: cs) h
    · rename_i c' cs' heq hne
      injection hne with h1 h2
      subst h2
      exact ih (fun hinf => h (List.infix_cons hinf))

/-- C7: for every duration string of the provider's compact PT notation —
hour and minute components each an arbitrary non-empty digit run, either
component possibly absent — parseDuration returns the components with
totalMinutes equal to hours times sixty plus minutes, a missing component
contributing zero; moreover totalMinutes equals hours times sixty plus
minutes on every input whatsoever, and the spec's two examples evaluate as
stated (PT2H30M to 150 total minutes, PT45M to zero hours and 45 total
minutes). -/
theorem parseDuration_wellformed_spec :
    (∀ s : String,
      (parseDuration s).totalMinutes =
        (parseDuration s).hours * 60 + (parseDuration s).minutes) ∧
    (∀ hs ms : List Char, hs ≠ [] → ms ≠ [] →
      (∀ c ∈ hs, c.isDigit = true) → (∀ c ∈ ms, c.isDigit = true) →
      parseDuration (String.mk ('P' :: 'T' :: (hs ++ 'H' :: (ms ++ ['M'])))) =
        { hours := digitsToNat hs, minutes := digitsToNat ms,
          totalMinutes := digitsToNat hs * 60 + digitsToNat ms,
          formatted := toString (digitsToNat hs) ++ "h " ++ toString (digitsToNat ms) ++ "m" }) ∧
    (∀ hs : List Char, hs ≠ [] → (∀ c ∈ hs, c.isDigit = true) →
      parseDuration (String.mk ('P' :: 'T' :: (hs ++ ['H']))) =
        { hours := digitsToNat hs, minutes := 0,
          totalMinutes := digitsToNat hs * 60,
          formatted := toString (digitsToNat hs) ++ "h " ++ toString 0 ++ "m" }) ∧
    (∀ ms : List Char, ms ≠ [] → (∀ c ∈ ms, c.isDigit = true) →
      parseDuration (String.mk ('P' :: 'T' :: (ms ++ ['M']))) =
        { hours := 0, minutes := digitsToNat ms,
          totalMinutes := digitsToNat ms,
          formatted := toString 0 ++ "h " ++ toString (digitsToNat ms) ++ "m" }) ∧
    parseDuration "PT2H30M" =
      { hours := 2, minutes := 30, totalMinutes := 150, formatted := "2h 30m" } ∧
    parseDuration "PT45M" =
      { hours := 0, minutes := 45, totalMinutes := 45, formatted := "0h 45m" } := by
  refine ⟨?_, ?_, ?_, ?_, by decide, by decide⟩
  · intro s
    unfold parseDuration
    cases afterPT s.data <;> simp
  · intro hs ms hhs hms hdhs hdms
    have h1 : numComponent 'H' (hs ++ 'H' :: (ms ++ ['M'])) =
        (some (digitsToNat hs), ms ++ ['M']) :=
      numComponent_hit 'H' (by decide) hs (ms ++ ['M']) hhs hdhs
    have h2 : numComponent 'M' (ms ++ ['M']) = (some (digitsToNat ms), []) := by
      have := numComponent_hit 'M' (by decide) ms [] hms hdms
      simpa using this
    unfold parseDuration
    simp only [afterPT]
    rw [h1, h2]
    simp
  · intro hs hhs hdhs
    have h1 : numComponent 'H' (hs ++ ['H']) = (some (digitsToNat hs), []) := by
      have := numComponent_hit 'H' (by decide) hs [] hhs hdhs
      simpa using this
    unfold parseDuration
    simp only [afterPT]
    rw [h1, numComponent_nil]
    simp
  · intro ms hms hdms
    have hspan : spanDigits (ms ++ ['M']) = (ms, ['M']) :=
      spanDigits_append ms ['M'] hdms (by intro c hc; cases hc; decide)
    have h1 : numComponent 'H' (ms ++ ['M']) = (none, ms ++ ['M']) :=
      numComponent_wrong_marker 'H' 'M' (ms ++ ['M']) ms [] hspan (by decide)
    have h2 : numComponent 'M' (ms ++ ['M']) = (some (digitsToNat ms), []) := by
      have := numComponent_hit 'M' (by decide) ms [] hms hdms
      simpa using this
    unfold parseDuration
    simp only [afterPT]
    rw [h1, h2]
    simp

/-- Witness for C7 at concrete digit runs: hours 2, minutes 30. -/
theorem parseDuration_wellformed_witness :
    parseDuration (String.mk ('P' :: 'T' :: (['2'] ++ 'H' :: (['3', '0'] ++ ['M'])))) =
      { hours := digitsToNat ['2'], minutes := digitsToNat ['3', '0'],
        totalMinutes := digitsToNat ['2'] * 60 + digitsToNat ['3', '0'],
        formatted := toString (digitsToNat ['2']) ++ "h " ++ toString (digitsToNat ['3', '0']) ++ "m" } :=
  parseDuration_wellformed_spec.2.1 ['2'] ['3', '0'] (by decide) (by decide)
    (by decide) (by decide)

/-- C10: parseDuration is total and silently yields the zero duration
(zero hours, minutes and total, formatted 0h 0m) on every string in which
the literal PT pattern never occurs — the empty string, arbitrary malformed
values, and day-based durations such as P1DT2H30M — so malformed provider
durations become zero-length durations in the normalized offer, as the
final conjunct shows on a raw itinerary carrying such a duration. -/
theorem parseDuration_malformed_spec :
    (∀ s : String, ¬ (['P', 'T'] <:+: s.data) →
      parseDuration s =
        { hours := 0, minutes := 0, totalMinutes := 0, formatted := "0h 0m" }) ∧
    parseDuration "" =
      { hours := 0, minutes := 0, totalMinutes := 0, formatted := "0h 0m" } ∧
    parseDuration "P1DT2H30M" =
      { hours := 0, minutes := 0, totalMinutes := 0, formatted := "0h 0m" } ∧
    parseDuration "not a duration" =
      { hours := 0, minutes := 0, totalMinutes := 0, formatted := "0h 0m" } ∧
    (normalizeItinerary { duration := "P1DT2H30M", segments := [] } 0 emptyDictionaries).duration =
      { hours := 0, minutes := 0, totalMinutes := 0, formatted := "0h 0m" } := by
  refine ⟨?_, by decide, by decide, by decide, by decide⟩
  intro s hs
  unfold parseDuration
  rw [afterPT_eq_none_of_no_match s.data hs]

/-- Witness for C10 at the day-based duration of the claim. -/
theorem parseDuration_malformed_witness :
    parseDuration "P1DT2H30M" =
      { hours := 0, minutes := 0, totalMinutes := 0, formatted := "0h 0m" } :=
  parseDuration_malformed_spec.1 "P1DT2H30M" (by decide)

-- ============================================
-- Helper lemmas and sample data: offer normalization
-- ============================================

lemma normalizeItinerariesFrom_stops (dictionaries : AmadeusDictionaries) :
    ∀ (i : Nat) (l : List AmadeusItinerary) (it : Itinerary),
      it ∈ normalizeItinerariesFrom dictionaries i l →
      it.stops = (it.segments.length : Int) - 1 := by
  intro i l
  induction l generalizing i with
  | nil => intro it h; cases h
  | cons raw rest ih =>
    intro it h
    rcases List.mem_cons.mp h with h1 | h2
    · subst h1
      simp [normalizeItinerary]
    · exact ih (i + 1) it h2

lemma normalizeItinerariesFrom_stops_zero (dictionaries : AmadeusDictionaries) :
    ∀ (i : Nat) (l : List AmadeusItinerary),
      (l.all (fun it => it.segments.length = 1) = true ↔
        ∀ it ∈ normalizeItinerariesFrom dictionaries i l, it.stops = 0) := by
  intro i l
  induction l generalizing i with
  | nil => simp [normalizeItinerariesFrom]
  | cons raw rest ih =>
    simp only [List.all_cons, Bool.and_eq_true, decide_eq_true_eq,
      normalizeItinerariesFrom, List.mem_cons, forall_eq_or_imp]
    constructor
    · rintro ⟨h1, h2⟩
      exact ⟨by simp [normalizeItinerary, h1], ((ih (i + 1)).mp h2)⟩
    · rintro ⟨h1, h2⟩
      refine ⟨?_, (ih (i + 1)).mpr h2⟩
      have : ((raw.segments.length : Int) - 1) = 0 := by
        simpa [normalizeItinerary] using h1
      omega

/-- C1 counterexample: the normalizer copies the provider's oneWay flag
unchanged, so a raw offer with a single itinerary and oneWay false
normalizes to isOneWay false although itineraries.length is one. -/
theorem normalizeOffer_isOneWay_counterexample :
    (normalizeOffer rawOneWayOffer emptyDictionaries).itineraries.length = 1 ∧
    (normalizeOffer rawOneWayOffer emptyDictionaries).isOneWay = false := by
  constructor
  · rfl
  · rfl

/-- C1 amended: isNonStop is true exactly when every normalized itinerary
has zero stops, and each normalized itinerary's stops equals its segment
count minus one; isOneWay, however, is the raw offer's oneWay flag copied
through, not derived from the itinerary count. -/
theorem normalizeOffer_invariants (offer : AmadeusFlightOffer) (dictionaries : AmadeusDictionaries) :
    (normalizeOffer offer dictionaries).isOneWay = offer.oneWay ∧
    ((normalizeOffer offer dictionaries).isNonStop = true ↔
      ∀ it ∈ (normalizeOffer offer dictionaries).itineraries, it.stops = 0) ∧
    (∀ it ∈ (normalizeOffer offer dictionaries).itineraries,
      it.stops = (it.segments.length : Int) - 1) := by
  refine ⟨rfl, ?_, ?_⟩
  · have h := normalizeItinerariesFrom_stops_zero dictionaries 0 offer.itineraries
    simpa [normalizeOffer] using h
  · intro it hit
    exact normalizeItinerariesFrom_stops dictionaries 0 offer.itineraries it
      (by simpa [normalizeOffer] using hit)

/-- C6: the normalized per-traveler price is the parsed grand total divided
by the count of traveler-pricing entries of the raw offer — the normalizer
never reads the requested passenger counts, and its signature has no access
to them. -/
theorem normalizeOffer_perTraveler (offer : AmadeusFlightOffer)
    (dictionaries : AmadeusDictionaries) (q : ℚ)
    (hq : parseFloatQ offer.price.grandTotal = some q)
    (hne : offer.travelerPricings ≠ []) :
    (normalizeOffer offer dictionaries).price.perTraveler =
      some (q / (offer.travelerPricings.length : ℚ)) := by
  have hlen : offer.travelerPricings.length ≠ 0 := by
    simpa [List.length_eq_zero] using hne
  simp [normalizeOffer, jsDiv, hq, hlen]

/-- Witness for C6: grand total 856.42 with two traveler-pricing entries
yields a per-traveler price of 428.21. -/
theorem normalizeOffer_perTraveler_witness :
    (normalizeOffer rawTwoTravelerOffer emptyDictionaries).price.perTraveler =
      some ((42821 : ℚ) / 100) := by
  have hq : parseFloatQ rawTwoTravelerOffer.price.grandTotal = some ((42821 : ℚ) / 50) := by
    show parseFloatQ "856.42" = some ((42821 : ℚ) / 50)
    simp +decide [parseFloatQ, spanDigits, digitsToNat]
    norm_num
  have h := normalizeOffer_perTraveler rawTwoTravelerOffer emptyDictionaries
    ((42821 : ℚ) / 50) hq (by decide)
  rw [h]
  have hlen : rawTwoTravelerOffer.travelerPricings.length = 2 := rfl
  rw [hlen]
  norm_num

-- ============================================
-- Sample normalized data for the filter claims
-- ============================================

/-- C3: with a non-empty allowed-stops set, an offer surviving applyFilters
has every itinerary's stop category (counts of two or more collapsing to
two) in the set; in particular the non-stop-only criteria exclude the
round trip whose outbound is direct but whose inbound has one stop. -/
theorem applyFilters_stops_spec :
    (∀ (offers : List FlightOffer) (f : FilterState) (offer : FlightOffer),
      f.stops ≠ [] → offer ∈ applyFilters f offers →
      ∀ it ∈ offer.itineraries, stopsCategory it ∈ f.stops) ∧
    applyFilters nonStopOnlyFilter [roundTripMixedStops] = [] := by
  constructor
  · intro offers f offer hne hmem it hit
    have hp : offerMatchesFilters f offer = true := (List.mem_filter.mp hmem).2
    have hms : meetsStopsFilter offer f.stops = true := by
      by_contra hms
      simp only [Bool.not_eq_true] at hms
      simp [offerMatchesFilters, hms] at hp
    unfold meetsStopsFilter at hms
    rw [if_neg hne] at hms
    have := (List.all_eq_true.mp hms) it hit
    simpa using this
  · rfl

/-- Witness for C3: the fully non-stop round trip survives the non-stop
criteria, so by the theorem each of its itineraries' categories is in the
allowed set. -/
theorem applyFilters_stops_witness :
    ∀ it ∈ goodRoundTrip.itineraries, stopsCategory it ∈ nonStopOnlyFilter.stops :=
  applyFilters_stops_spec.1 [goodRoundTrip] nonStopOnlyFilter goodRoundTrip
    (by decide) (by decide)

-- ============================================
-- C4: the airline criterion reads the outbound itinerary only
-- ============================================

lemma mapInboundAirlines_direction (g : Airline → Airline) (it : Itinerary) :
    (if it.direction == "inbound" then
       { it with segments := it.segments.map (fun s => { s with airline := g s.airline }) }
     else it).direction = it.direction := by
  split <;> rfl

lemma getOutboundItinerary_mapInbound (g : Airline → Airline) (offer : FlightOffer)
    (hout : ∃ it ∈ offer.itineraries, it.direction = "outbound") :
    getOutboundItinerary (mapInboundAirlines g offer) = getOutboundItinerary offer := by
  obtain ⟨it0, hmem, hdir⟩ := hout
  have hfind : ∃ it1, offer.itineraries.find? (fun it => it.direction == "outbound") = some it1 := by
    rcases hfs : offer.itineraries.find? (fun it => it.direction == "outbound") with _ | it1
    · have := List.find?_eq_none.mp hfs it0 hmem
      simp [hdir] at this
    · exact ⟨it1, hfs⟩
  obtain ⟨it1, hit1⟩ := hfind
  have hdir1 : it1.direction = "outbound" := by
    have := List.find?_some hit1
    simpa using this
  unfold getOutboundItinerary mapInboundAirlines
  rw [List.find?_map]
  have hcongr : ((fun it => it.direction == "outbound") ∘ (fun it =>
      if it.direction == "inbound" then
        { it with segments := it.segments.map (fun s => { s with airline := g s.airline }) }
      else it)) = (fun (it : Itinerary) => it.direction == "outbound") := by
    funext it
    simp only [Function.comp_apply]
    rw [mapInboundAirlines_direction]
  rw [hcongr, hit1]
  simp [hdir1]

lemma mapInboundAirlines_stops (g : Airline → Airline) (it : Itinerary) :
    (if it.direction == "inbound" then
       { it with segments := it.segments.map (fun s => { s with airline := g s.airline }) }
     else it).stops = it.stops := by
  split <;> rfl

lemma meetsStopsFilter_mapInbound (g : Airline → Airline) (offer : FlightOffer)
    (s : List Int) :
    meetsStopsFilter (mapInboundAirlines g offer) s = meetsStopsFilter offer s := by
  unfold meetsStopsFilter mapInboundAirlines
  simp only [List.all_map]
  have hfun : ((fun itinerary => s.contains (stopsCategory itinerary)) ∘ (fun it =>
      if it.direction == "inbound" then
        { it with segments := it.segments.map (fun seg => { seg with airline := g seg.airline }) }
      else it)) = (fun (itinerary : Itinerary) => s.contains (stopsCategory itinerary)) := by
    funext it
    simp only [Function.comp_apply]
    unfold stopsCategory
    rw [mapInboundAirlines_stops]
  rw [hfun]

lemma offerMatchesFilters_mapInbound (f : FilterState) (g : Airline → Airline)
    (offer : FlightOffer)
    (hout : ∃ it ∈ offer.itineraries, it.direction = "outbound") :
    offerMatchesFilters f (mapInboundAirlines g offer) = offerMatchesFilters f offer := by
  have hgo := getOutboundItinerary_mapInbound g offer hout
  have hstops := meetsStopsFilter_mapInbound g offer f.stops
  have hair : meetsAirlinesFilter (mapInboundAirlines g offer) f.airlines =
      meetsAirlinesFilter offer f.airlines := by
    unfold meetsAirlinesFilter outboundAirlineCodes
    rw [hgo]
  have hdep : getDepartureHour (mapInboundAirlines g offer) = getDepartureHour offer := by
    unfold getDepartureHour
    rw [hgo]
  have harr : getArrivalHour (mapInboundAirlines g offer) = getArrivalHour offer := by
    unfold getArrivalHour
    rw [hgo]
  have hdur : getTotalDuration (mapInboundAirlines g offer) = getTotalDuration offer := by
    unfold getTotalDuration
    rw [hgo]
  have hprice : (mapInboundAirlines g offer).price = offer.price := rfl
  unfold offerMatchesFilters
  rw [hstops, hair, hdep, harr, hdur, hprice]

/-- C4: with a non-empty airline selection, an offer can pass the filter
only when some outbound segment's airline code is selected; the airline
criterion holds exactly when some outbound segment airline is selected;
and rewriting the airline of every inbound segment (of an offer that has
an outbound itinerary) never changes the filter decision. -/
theorem applyFilters_airlines_spec (f : FilterState) (offer : FlightOffer)
    (hne : f.airlines ≠ []) :
    (offerMatchesFilters f offer = true →
      ∃ code, code ∈ outboundAirlineCodes offer ∧ code ∈ f.airlines) ∧
    (meetsAirlinesFilter offer f.airlines = true ↔
      ∃ code, code ∈ outboundAirlineCodes offer ∧ code ∈ f.airlines) ∧
    (∀ g : Airline → Airline,
      (∃ it ∈ offer.itineraries, it.direction = "outbound") →
      offerMatchesFilters f (mapInboundAirlines g offer) = offerMatchesFilters f offer) := by
  have hiff : meetsAirlinesFilter offer f.airlines = true ↔
      ∃ code, code ∈ outboundAirlineCodes offer ∧ code ∈ f.airlines := by
    unfold meetsAirlinesFilter
    rw [if_neg hne]
    simp only [List.any_eq_true, List.elem_iff]
    exact ⟨fun ⟨a, h1, h2⟩ => ⟨a, h2, h1⟩, fun ⟨a, h1, h2⟩ => ⟨a, h2, h1⟩⟩
  refine ⟨?_, hiff, fun g hout => offerMatchesFilters_mapInbound f g offer hout⟩
  intro hp
  have hma : meetsAirlinesFilter offer f.airlines = true := by
    by_contra hma
    simp only [Bool.not_eq_true] at hma
    simp [offerMatchesFilters, hma] at hp
  exact hiff.mp hma

/-- Witness for C4 at the AA-only criteria and the mixed round trip, whose
outbound flies AA. -/
theorem applyFilters_airlines_witness :
    (offerMatchesFilters airlineFilterAA roundTripMixedStops = true →
      ∃ code, code ∈ outboundAirlineCodes roundTripMixedStops ∧
        code ∈ airlineFilterAA.airlines) ∧
    (meetsAirlinesFilter roundTripMixedStops airlineFilterAA.airlines = true ↔
      ∃ code, code ∈ outboundAirlineCodes roundTripMixedStops ∧
        code ∈ airlineFilterAA.airlines) ∧
    (∀ g : Airline → Airline,
      (∃ it ∈ roundTripMixedStops.itineraries, it.direction = "outbound") →
      offerMatchesFilters airlineFilterAA (mapInboundAirlines g roundTripMixedStops) =
        offerMatchesFilters airlineFilterAA roundTripMixedStops) :=
  applyFilters_airlines_spec airlineFilterAA roundTripMixedStops (by decide)

-- ============================================
-- C5: empty criteria and the identity filter
-- ============================================

/-- C5 counterexample: with empty stops and airline sets, the full hour
ranges zero to twenty-four, a price range covering the offer's total and a
duration cap above its duration, applyFilters still drops the offer whose
departure time string parses to the hour 25 (the hour check excludes any
parsed hour above the range's upper bound), so the result is not the
original list. -/
theorem applyFilters_empty_criteria_counterexample :
    permissiveFilter.stops = [] ∧
    permissiveFilter.airlines = [] ∧
    permissiveFilter.departureTimeRange = (0, 24) ∧
    permissiveFilter.arrivalTimeRange = (0, 24) ∧
    lateHourOffer.price.total = some 500 ∧
    permissiveFilter.priceRange.1 ≤ 500 ∧ (500 : ℚ) ≤ permissiveFilter.priceRange.2 ∧
    getTotalDuration lateHourOffer ≤ permissiveFilter.maxDuration ∧
    applyFilters permissiveFilter [lateHourOffer] = [] := by
  refine ⟨rfl, rfl, rfl, rfl, rfl, by norm_num [permissiveFilter], by norm_num [permissiveFilter], by decide, by decide⟩

/-- C5 amended: applyFilters is the identity on any offer list under the
claim's empty criteria, provided additionally that every offer's parsed
outbound departure and arrival hours (when they parse at all) lie within
zero to twenty-four — the bound the counterexample shows to be necessary. -/
theorem applyFilters_empty_criteria (offers : List FlightOffer) (f : FilterState)
    (hstops : f.stops = []) (hair : f.airlines = [])
    (hdep : f.departureTimeRange = (0, 24)) (harr : f.arrivalTimeRange = (0, 24))
    (hprice : ∀ o ∈ offers, ∀ q : ℚ, o.price.total = some q →
      f.priceRange.1 ≤ q ∧ q ≤ f.priceRange.2)
    (hdh : ∀ o ∈ offers, ∀ h : Int, getDepartureHour o = some h → 0 ≤ h ∧ h ≤ 24)
    (hah : ∀ o ∈ offers, ∀ h : Int, getArrivalHour o = some h → 0 ≤ h ∧ h ≤ 24)
    (hdur : ∀ o ∈ offers, getTotalDuration o ≤ f.maxDuration) :
    applyFilters f offers = offers := by
  unfold applyFilters
  rw [List.filter_eq_self]
  intro o ho
  have h1 : meetsStopsFilter o f.stops = true := by
    unfold meetsStopsFilter
    rw [hstops]
    simp
  have h2 : meetsAirlinesFilter o f.airlines = true := by
    unfold meetsAirlinesFilter
    rw [hair]
    simp
  have h3 : jsNumLt o.price.total f.priceRange.1 = false ∧
      jsNumGt o.price.total f.priceRange.2 = false := by
    unfold jsNumLt jsNumGt
    cases htot : o.price.total with
    | none => simp
    | some q =>
      have := hprice o ho q htot
      constructor
      · simp only [decide_eq_false_iff_not, not_lt]
        exact this.1
      · simp only [decide_eq_false_iff_not, not_lt]
        exact this.2
  have h4 : jsIntLt (getDepartureHour o) f.departureTimeRange.1 = false ∧
      jsIntGt (getDepartureHour o) f.departureTimeRange.2 = false := by
    unfold jsIntLt jsIntGt
    rw [hdep]
    cases hh : getDepartureHour o with
    | none => simp
    | some h =>
      have := hdh o ho h hh
      constructor
      · simp only [decide_eq_false_iff_not, not_lt]
        exact this.1
      · simp only [decide_eq_false_iff_not, not_lt]
        exact this.2
  have h5 : jsIntLt (getArrivalHour o) f.arrivalTimeRange.1 = false ∧
      jsIntGt (getArrivalHour o) f.arrivalTimeRange.2 = false := by
    unfold jsIntLt jsIntGt
    rw [harr]
    cases hh : getArrivalHour o with
    | none => simp
    | some h =>
      have := hah o ho h hh
      constructor
      · simp only [decide_eq_false_iff_not, not_lt]
        exact this.1
      · simp only [decide_eq_false_iff_not, not_lt]
        exact this.2
  have h6 : (getTotalDuration o > f.maxDuration) = False := by
    simp only [gt_iff_lt, eq_iff_iff, iff_false, not_lt]
    exact hdur o ho
  unfold offerMatchesFilters
  rw [h1, h2, h3.1, h3.2, h4.1, h4.2, h5.1, h5.2]
  simp [h6]

/-- Witness for C5 (amended) on a singleton list holding the well-behaved
mixed round trip: the permissive criteria return it unchanged. -/
theorem applyFilters_empty_criteria_witness :
    applyFilters permissiveFilter [roundTripMixedStops] = [roundTripMixedStops] := by
  apply applyFilters_empty_criteria
  · rfl
  · rfl
  · rfl
  · rfl
  · intro o ho q hq
    have ho' : o = roundTripMixedStops := by simpa using ho
    subst ho'
    have hq' : q = 500 := by
      have : (some (500 : ℚ) : JSNum) = some q := hq
      simpa using this.symm
    subst hq'
    constructor <;> norm_num [permissiveFilter]
  · intro o ho h hh
    have ho' : o = roundTripMixedStops := by simpa using ho
    subst ho'
    have : getDepartureHour roundTripMixedStops = some 8 := by decide
    rw [this] at hh
    have hh' : h = 8 := by simpa using hh.symm
    subst hh'
    omega
  · intro o ho h hh
    have ho' : o = roundTripMixedStops := by simpa using ho
    subst ho'
    have : getArrivalHour roundTripMixedStops = some 11 := by decide
    rw [this] at hh
    have hh' : h = 11 := by simpa using hh.symm
    subst hh'
    omega
  · intro o ho
    have ho' : o = roundTripMixedStops := by simpa using ho
    subst ho'
    decide

-- ============================================
-- C8: highlight selection
-- ============================================

lemma insertByKey_ne_nil (key : FlightOffer → ℚ) (x : FlightOffer)
    (l : List FlightOffer) : insertByKey key x l ≠ [] := by
  cases l with
  | nil => simp [insertByKey]
  | cons y ys =>
    unfold insertByKey
    split <;> simp

lemma stableSortBy_ne_nil (key : FlightOffer → ℚ) (x : FlightOffer)
    (xs : List FlightOffer) : stableSortBy key (x :: xs) ≠ [] := by
  unfold stableSortBy
  exact insertByKey_ne_nil key x (stableSortBy key xs)

lemma insertByKey_head (key : FlightOffer → ℚ) (x : FlightOffer)
    (l : List FlightOffer) :
    (insertByKey key x l).head? =
      some (match l.head? with
            | none => x
            | some h => if key h < key x then h else x) := by
  cases l with
  | nil => rfl
  | cons y ys =>
    unfold insertByKey
    by_cases h : key y < key x
    · rw [if_pos h]
      simp [h]
    · rw [if_neg h]
      simp [h]

/-- The head of the stable sort is in the list, has a minimal key, and is
strictly smaller in key than everything in front of its first occurrence:
it is the first element of the original order attaining the minimum. -/
lemma stableSortBy_head_spec (key : FlightOffer → ℚ) :
    ∀ (l : List FlightOffer) (c : FlightOffer),
      (stableSortBy key l).head? = some c →
      c ∈ l ∧ (∀ y ∈ l, key c ≤ key y) ∧
      ∃ pre post, l = pre ++ c :: post ∧ ∀ y ∈ pre, key c < key y := by
  intro l
  induction l with
  | nil => intro c hc; cases hc
  | cons x xs ih =>
    intro c hc
    unfold stableSortBy at hc
    rw [insertByKey_head] at hc
    rcases hsort : (stableSortBy key xs).head? with _ | h
    · rw [hsort] at hc
      have hcx : c = x := by simpa using hc.symm
      subst hcx
      have hxs : xs = [] := by
        cases xs with
        | nil => rfl
        | cons a as =>
          exact absurd (List.head?_eq_none_iff.mp hsort) (stableSortBy_ne_nil key a as)
      subst hxs
      exact ⟨by simp, by simp, [], [], by simp, by simp⟩
    · rw [hsort] at hc
      obtain ⟨hmem, hmin, pre, post, hsplit, hpre⟩ := ih h hsort
      by_cases hlt : key h < key x
      · have hch : c = h := by
          simp only [hlt, if_true] at hc
          simpa using hc.symm
        subst hch
        refine ⟨List.mem_cons_of_mem x hmem, ?_, x :: pre, post, by simp [hsplit], ?_⟩
        · intro y hy
          rcases List.mem_cons.mp hy with rfl | hy2
          · exact le_of_lt hlt
          · exact hmin y hy2
        · intro y hy
          rcases List.mem_cons.mp hy with rfl | hy2
          · exact hlt
          · exact hpre y hy2
      · have hcx : c = x := by
          simp only [hlt, if_false] at hc
          simpa using hc.symm
        subst hcx
        have hxh : key c ≤ key h := not_lt.mp hlt
        refine ⟨List.mem_cons_self c xs, ?_, [], xs, by simp, by simp⟩
        intro y hy
        rcases List.mem_cons.mp hy with rfl | hy2
        · exact le_refl (key y)
        · exact le_trans hxh (hmin y hy2)

/-- C8: on a non-empty offer list (whose totals are finite numbers and
whose offers each have an itinerary, so that the sort comparators are
well defined), the highlight computation picks as cheapest the first offer
in original order with minimal total and as fastest the first offer with
minimal mean itinerary duration, and returns the pair of highlights unless
the two picks are the same offer id, in which case it returns the empty
list. -/
theorem selectHighlights_spec (offers : List FlightOffer) (hne : offers ≠ [])
    (hfin : ∀ o ∈ offers, o.price.total = some (priceTotalKey o))
    (hitin : ∀ o ∈ offers, o.itineraries ≠ []) :
    ∃ cheapest fastest,
      (stableSortBy priceTotalKey offers).head? = some cheapest ∧
      (stableSortBy getAverageDuration offers).head? = some fastest ∧
      cheapest ∈ offers ∧
      (∀ o ∈ offers, priceTotalKey cheapest ≤ priceTotalKey o) ∧
      (∃ pre post, offers = pre ++ cheapest :: post ∧
        ∀ o ∈ pre, priceTotalKey cheapest < priceTotalKey o) ∧
      fastest ∈ offers ∧
      (∀ o ∈ offers, getAverageDuration fastest ≤ getAverageDuration o) ∧
      (∃ pre post, offers = pre ++ fastest :: post ∧
        ∀ o ∈ pre, getAverageDuration fastest < getAverageDuration o) ∧
      (fastest.id = cheapest.id → selectHighlights offers = []) ∧
      (fastest.id ≠ cheapest.id →
        selectHighlights offers = [("cheapest", cheapest), ("fastest", fastest)]) := by
  cases offers with
  | nil => exact absurd rfl hne
  | cons x xs =>
    have hc : ∃ c, (stableSortBy priceTotalKey (x :: xs)).head? = some c := by
      rcases h : (stableSortBy priceTotalKey (x :: xs)).head? with _ | c
      · exact absurd (List.head?_eq_none_iff.mp h) (stableSortBy_ne_nil priceTotalKey x xs)
      · exact ⟨c, rfl⟩
    have hf : ∃ f, (stableSortBy getAverageDuration (x :: xs)).head? = some f := by
      rcases h : (stableSortBy getAverageDuration (x :: xs)).head? with _ | f
      · exact absurd (List.head?_eq_none_iff.mp h) (stableSortBy_ne_nil getAverageDuration x xs)
      · exact ⟨f, rfl⟩
    obtain ⟨c, hc⟩ := hc
    obtain ⟨f, hf⟩ := hf
    obtain ⟨hcmem, hcmin, hcpre⟩ := stableSortBy_head_spec priceTotalKey (x :: xs) c hc
    obtain ⟨hfmem, hfmin, hfpre⟩ := stableSortBy_head_spec getAverageDuration (x :: xs) f hf
    refine ⟨c, f, hc, hf, hcmem, hcmin, hcpre, hfmem, hfmin, hfpre, ?_, ?_⟩
    · intro hid
      unfold selectHighlights
      rw [hc, hf]
      simp [hid]
    · intro hid
      unfold selectHighlights
      rw [hc, hf]
      simp [hid]

/-- Witness for C8 at the two-offer sample. -/
theorem selectHighlights_witness :
    ∃ cheapest fastest,
      (stableSortBy priceTotalKey [cheapOffer, fastOffer]).head? = some cheapest ∧
      (stableSortBy getAverageDuration [cheapOffer, fastOffer]).head? = some fastest ∧
      cheapest ∈ [cheapOffer, fastOffer] ∧
      (∀ o ∈ [cheapOffer, fastOffer], priceTotalKey cheapest ≤ priceTotalKey o) ∧
      (∃ pre post, [cheapOffer, fastOffer] = pre ++ cheapest :: post ∧
        ∀ o ∈ pre, priceTotalKey cheapest < priceTotalKey o) ∧
      fastest ∈ [cheapOffer, fastOffer] ∧
      (∀ o ∈ [cheapOffer, fastOffer], getAverageDuration fastest ≤ getAverageDuration o) ∧
      (∃ pre post, [cheapOffer, fastOffer] = pre ++ fastest :: post ∧
        ∀ o ∈ pre, getAverageDuration fastest < getAverageDuration o) ∧
      (fastest.id = cheapest.id → selectHighlights [cheapOffer, fastOffer] = []) ∧
      (fastest.id ≠ cheapest.id →
        selectHighlights [cheapOffer, fastOffer] =
          [("cheapest", cheapest), ("fastest", fastest)]) :=
  selectHighlights_spec [cheapOffer, fastOffer] (by decide)
    (by intro o ho; rcases List.mem_cons.mp ho with rfl | ho2
        · rfl
        · have : o = fastOffer := by simpa using ho2
          subst this; rfl)
    (by decide)

-- ============================================
-- C9: resolve-by-code never throws and matches exactly
-- ============================================

lemma findByCode_some_code (code : String) :
    ∀ (l : List LocationSearchResult) (r : LocationSearchResult),
      findByCode code l = some r → r.entry.code = code := by
  intro l
  induction l with
  | nil => intro r hr; cases hr
  | cons x rest ih =>
    intro r hr
    unfold findByCode at hr
    by_cases hx : x.entry.code = code
    · rw [if_pos hx] at hr
      cases hr
      exact hx
    · rw [if_neg hx] at hr
      rcases hair : x.airports with _ | airports
      · simp only [hair] at hr
        exact ih r hr
      · simp only [hair] at hr
        rcases hfind : airports.find? (fun a => decide (a.code = code)) with _ | airport
        · simp only [hfind] at hr
          exact ih r hr
        · simp only [hfind] at hr
          cases hr
          have := List.find?_some hfind
          simpa using this

lemma findByCode_none (code : String) :
    ∀ (l : List LocationSearchResult), findByCode code l = none →
      ∀ x ∈ l, x.entry.code ≠ code ∧
        ∀ airports, x.airports = some airports → ∀ a ∈ airports, a.code ≠ code := by
  intro l
  induction l with
  | nil => intro h x hx; cases hx
  | cons y rest ih =>
    intro h x hx
    unfold findByCode at h
    by_cases hy : y.entry.code = code
    · rw [if_pos hy] at h
      cases h
    · rw [if_neg hy] at h
      rcases hair : y.airports with _ | airports
      · simp only [hair] at h
        rcases List.mem_cons.mp hx with rfl | hx2
        · exact ⟨hy, by intro a ha; rw [hair] at ha; cases ha⟩
        · exact ih h x hx2
      · simp only [hair] at h
        rcases hfind : airports.find? (fun a => decide (a.code = code)) with _ | airport
        · simp only [hfind] at h
          rcases List.mem_cons.mp hx with rfl | hx2
          · refine ⟨hy, ?_⟩
            intro as has a ha
            rw [hair] at has
            cases has
            have := List.find?_eq_none.mp hfind a ha
            simpa using this
          · exact ih h x hx2
        · simp only [hfind] at h
          cases h

/-- C9: the resolver never throws — for every cache, code and transport
outcome it returns ok — and its result is: the cache entry on a cache hit;
null for short codes; null when the search throws (the error is caught);
the first exact code match of the search results, also looking at airports
nested under city entries (soundness and completeness of the scan are the
last two conjuncts); else the first search result; else null. -/
theorem resolveByCode_spec (cache : List (String × LocationSearchResult)) (code : String)
    (searchOutcome : Except TransportError (List LocationSearchResult)) :
    (∃ r, resolveByCode cache code searchOutcome = .ok r) ∧
    (∀ e, getLocation cache code = some e →
      resolveByCode cache code searchOutcome = .ok (some e)) ∧
    (getLocation cache code = none → code.length < 2 →
      resolveByCode cache code searchOutcome = .ok none) ∧
    (getLocation cache code = none → ¬ code.length < 2 →
      ∀ err, searchOutcome = .error err →
        resolveByCode cache code searchOutcome = .ok none) ∧
    (getLocation cache code = none → ¬ code.length < 2 →
      ∀ results, searchOutcome = .ok results →
        (∀ m, findByCode code results = some m →
          resolveByCode cache code searchOutcome = .ok (some m)) ∧
        (findByCode code results = none →
          resolveByCode cache code searchOutcome = .ok results.head?)) ∧
    (∀ results m, findByCode code results = some m → m.entry.code = code) ∧
    (∀ results, findByCode code results = none →
      ∀ x ∈ results, x.entry.code ≠ code ∧
        ∀ airports, x.airports = some airports → ∀ a ∈ airports, a.code ≠ code) := by
  refine ⟨?_, ?_, ?_, ?_, ?_, findByCode_some_code code, findByCode_none code⟩
  · rcases hcache : getLocation cache code with _ | e
    · by_cases hlen : code.length < 2
      · exact ⟨none, by simp [resolveByCode, hcache, getLocationByCode, hlen]⟩
      · rcases searchOutcome with err | results
        · exact ⟨none, by simp [resolveByCode, hcache, getLocationByCode, hlen,
            getLocationByCodeBody, Bind.bind, Except.bind, Pure.pure, Except.pure]⟩
        · rcases hfind : findByCode code results with _ | m
          · exact ⟨results.head?, by simp [resolveByCode, hcache, getLocationByCode, hlen,
              getLocationByCodeBody, Bind.bind, Except.bind, Pure.pure, Except.pure, hfind]⟩
          · exact ⟨some m, by simp [resolveByCode, hcache, getLocationByCode, hlen,
              getLocationByCodeBody, Bind.bind, Except.bind, Pure.pure, Except.pure, hfind]⟩
    · exact ⟨some e, by simp [resolveByCode, hcache]⟩
  · intro e hcache
    simp [resolveByCode, hcache]
  · intro hcache hlen
    simp [resolveByCode, hcache, getLocationByCode, hlen]
  · intro hcache hlen err hso
    subst hso
    simp [resolveByCode, hcache, getLocationByCode, hlen, getLocationByCodeBody, Bind.bind, Except.bind, Pure.pure, Except.pure]
  · intro hcache hlen results hso
    subst hso
    constructor
    · intro m hfind
      simp [resolveByCode, hcache, getLocationByCode, hlen, getLocationByCodeBody, Bind.bind, Except.bind, Pure.pure, Except.pure, hfind]
    · intro hfind
      simp [resolveByCode, hcache, getLocationByCode, hlen, getLocationByCodeBody, Bind.bind, Except.bind, Pure.pure, Except.pure, hfind]

/-- Witness for C9 at an empty cache, the code JFK and a successful search
returning the city that nests the JFK airport. -/
theorem resolveByCode_witness :
    (∃ r, resolveByCode [] "JFK" (.ok [nycCity]) = .ok r) ∧
    (∀ e, getLocation [] "JFK" = some e →
      resolveByCode [] "JFK" (.ok [nycCity]) = .ok (some e)) ∧
    (getLocation [] "JFK" = none → ("JFK" : String).length < 2 →
      resolveByCode [] "JFK" (.ok [nycCity]) = .ok none) ∧
    (getLocation [] "JFK" = none → ¬ ("JFK" : String).length < 2 →
      ∀ err, (.ok [nycCity] : Except TransportError (List LocationSearchResult)) = .error err →
        resolveByCode [] "JFK" (.ok [nycCity]) = .ok none) ∧
    (getLocation [] "JFK" = none → ¬ ("JFK" : String).length < 2 →
      ∀ results, (.ok [nycCity] : Except TransportError (List LocationSearchResult)) = .ok results →
        (∀ m, findByCode "JFK" results = some m →
          resolveByCode [] "JFK" (.ok [nycCity]) = .ok (some m)) ∧
        (findByCode "JFK" results = none →
          resolveByCode [] "JFK" (.ok [nycCity]) = .ok results.head?)) ∧
    (∀ results m, findByCode "JFK" results = some m → m.entry.code = "JFK") ∧
    (∀ results, findByCode "JFK" results = none →
      ∀ x ∈ results, x.entry.code ≠ "JFK" ∧
        ∀ airports, x.airports = some airports → ∀ a ∈ airports, a.code ≠ "JFK") :=
  resolveByCode_spec [] "JFK" (.ok [nycCity])

-- ============================================
-- C2: single-flight token refresh
-- ============================================

/-- C2: under the event-loop interleaving in which a second getValidToken
call arrives while the first call's refresh is in flight (no valid cached
token, loading flag just set), exactly one authentication request is
issued, and the second caller receives the outcome of the in-flight
refresh — the fetched token on success, or a rejection carrying the
recorded failure message — identical to the first caller's result.  The
token and message are assumed non-empty, as JavaScript treats an empty
string as falsy in both the validity check and the waiter's resolution. -/
theorem singleFlight_token_spec (st0 : AuthState) (now : Int) (outcome : FetchOutcome)
    (hvalid : isTokenValid st0 now = false) (hload : st0.isLoading = false)
    (htok : ∀ t e, outcome = .success t e → t ≠ "")
    (hmsg : ∀ m, outcome = .failure m → m ≠ "") :
    (runConcurrentGetValidToken st0 now true outcome).requests = 1 ∧
    (runConcurrentGetValidToken st0 now true outcome).secondCaller =
      (match outcome with
       | .success t _ => .ok t
       | .failure m => .error m) ∧
    (runConcurrentGetValidToken st0 now true outcome).firstCaller =
      (runConcurrentGetValidToken st0 now true outcome).secondCaller := by
  have h1 : getValidTokenStart st0 now true =
      .started { st0 with isLoading := true, error := none } := by
    unfold getValidTokenStart fetchTokenStart
    simp [hvalid, hload]
  have hvalid1 : isTokenValid { st0 with isLoading := true, error := none } now = false :=
    hvalid
  have h2 : getValidTokenStart { st0 with isLoading := true, error := none } now true =
      .waiter := by
    unfold getValidTokenStart fetchTokenStart
    simp [hvalid1]
  cases outcome with
  | success t e =>
    have ht : t ≠ "" := htok t e rfl
    refine ⟨?_, ?_, ?_⟩ <;>
      simp [runConcurrentGetValidToken, h1, h2, stateAfterStart, startedCount,
        callResult, applyOutcome, waiterResult, initiatorResult, ht]
  | failure m =>
    have hm : m ≠ "" := hmsg m rfl
    refine ⟨?_, ?_, ?_⟩ <;>
      simp [runConcurrentGetValidToken, h1, h2, stateAfterStart, startedCount,
        callResult, applyOutcome, waiterResult, initiatorResult, jsOrElse, hm]

/-- Witness for C2: the empty initial store, a successful refresh. -/
theorem singleFlight_token_witness :
    (runConcurrentGetValidToken
        { accessToken := none, expiresAt := none, isLoading := false, error := none }
        0 true (.success "tok123" 1799)).requests = 1 ∧
    (runConcurrentGetValidToken
        { accessToken := none, expiresAt := none, isLoading := false, error := none }
        0 true (.success "tok123" 1799)).secondCaller =
      (match (.success "tok123" 1799 : FetchOutcome) with
       | .success t _ => .ok t
       | .failure m => .error m) ∧
    (runConcurrentGetValidToken
        { accessToken := none, expiresAt := none, isLoading := false, error := none }
        0 true (.success "tok123" 1799)).firstCaller =
      (runConcurrentGetValidToken
        { accessToken := none, expiresAt := none, isLoading := false, error := none }
        0 true (.success "tok123" 1799)).secondCaller :=
  singleFlight_token_spec
    { accessToken := none, expiresAt := none, isLoading := false, error := none }
    0 (.success "tok123" 1799) (by decide) rfl
    (by intro t e h; cases h; decide)
    (by intro m h; cases h)
